import Mathlib

/-!
Verification of the judge-domain consistency logic of the python-problem
repository against its specification.

The embedded code comes from:
* `supabase/migrations/20250527110000_judge_domain_schema.sql` — the
  `update_user_problem_status_on_submission` and
  `update_user_stats_on_judge_completion` triggers and the table CHECK
  constraints;
* the core-domain migration — the `user_stats` and `user_problem_status`
  tables (their key uniqueness and column defaults);
* the frontend problem page (`isAllPassed`, result rendering, toast pass
  counting) and the `useJudgeResult` polling hook.

Database rows are Lean structures; a table with a UNIQUE key is a function
from the key to `Option row`, which bakes the uniqueness constraint into the
state type.  A `DECIMAL(5,2)` score is an `Int` counting hundredths (exact
fixed-point decimals: `100.0` is `10000`, `66.67` is `6667`), SQL `NULL` is
`Option`, timestamps (`NOW()`) are a `Nat` parameter.
-/

/-- A row of `public.submissions` (judge domain migration, lines 29-39).
`score DECIMAL(5,2)` is nullable and counted in hundredths, hence
`Option Int`. -/
structure SubmissionRow where
  id : Nat
  problem_id : Nat
  user_id : Nat
  code : String
  language : String
  status : String
  score : Option Int
  deriving DecidableEq

/-- A row of `public.user_stats` (core domain migration, lines 141-150),
restricted to the columns the triggers read or write plus the remaining
data columns (`streak_days`, `rank_score`) so that frame conditions are
meaningful.  The key `user_id` is the index of the enclosing map. -/
structure UserStatsRow where
  problems_solved : Int
  submissions_count : Int
  streak_days : Int
  rank_score : Int
  updated_at : Nat
  deriving DecidableEq

/-- A row of `public.user_problem_status` (core domain migration, lines
153-166).  The UNIQUE key `(user_id, problem_id)` is the index of the
enclosing map. -/
structure UserProblemStatusRow where
  solved : Bool
  solved_at : Option Nat
  submission_count : Int
  last_submission_id : Option Nat
  best_score : Option Int
  updated_at : Nat
  deriving DecidableEq

/-- The mutable state the two business-logic triggers touch: the
`user_stats` table keyed by its UNIQUE `user_id`, and the
`user_problem_status` table keyed by its UNIQUE `(user_id, problem_id)`. -/
structure JudgeDbState where
  user_stats : Nat → Option UserStatsRow
  user_problem_status : Nat × Nat → Option UserProblemStatusRow

/-- The `(user_id, problem_id)` key of the `user_problem_status` row a
submission targets. -/
def SubmissionRow.upsKey (sub : SubmissionRow) : Nat × Nat :=
  (sub.user_id, sub.problem_id)

/-- `is_solved` of `update_user_stats_on_judge_completion` (migration lines
251-254): `NEW.result = 'AC' OR (submission_record.score IS NOT NULL AND
submission_record.score >= 100.0)`; in hundredths `100.0` is `10000`. -/
def is_solved_check (new_result : Option String) (score : Option Int) : Bool :=
  decide (new_result = some "AC") ||
    (match score with
     | some sc => decide ((10000 : Int) ≤ sc)
     | none => false)

/-- The row produced by the solved-branch UPDATE of
`update_user_stats_on_judge_completion` (migration lines 258-266):
`solved = TRUE, solved_at = NOW(), best_score = GREATEST(COALESCE(best_score,
0), COALESCE(score, 0)), updated_at = NOW()`. -/
def solvedRowUpdate (row : UserProblemStatusRow) (score : Option Int)
    (now : Nat) : UserProblemStatusRow :=
  { row with
    solved := true
    solved_at := some now
    best_score := some (max (row.best_score.getD 0) (score.getD 0))
    updated_at := now }

/-- The conditional UPDATE of `user_problem_status` in
`update_user_stats_on_judge_completion` (migration lines 257-266): update
the row of `(user_id, problem_id)` only `WHERE solved = FALSE`.  The `Bool`
component is plpgsql's `FOUND`: whether a row was updated. -/
def ups_solved_update (db : JudgeDbState) (submission_record : SubmissionRow)
    (now : Nat) : JudgeDbState × Bool :=
  match db.user_problem_status submission_record.upsKey with
  | some row =>
    if row.solved = false then
      ({ db with
         user_problem_status := fun k =>
           if k = submission_record.upsKey then
             some (solvedRowUpdate row submission_record.score now)
           else db.user_problem_status k }, true)
    else (db, false)
  | none => (db, false)

/-- The `IF FOUND` UPDATE of `user_stats` (migration lines 269-275):
`problems_solved = problems_solved + 1` for the owning user; a no-op when
the user has no `user_stats` row (the SQL UPDATE matches nothing). -/
def stats_inc_problems_solved (db : JudgeDbState) (uid : Nat) (now : Nat) :
    JudgeDbState :=
  match db.user_stats uid with
  | some st =>
    { db with
      user_stats := fun u =>
        if u = uid then
          some { st with problems_solved := st.problems_solved + 1, updated_at := now }
        else db.user_stats u }
  | none => db

/-- The unconditional UPDATE of `user_stats` (migration lines 278-283):
`submissions_count = submissions_count + 1` for the owning user; a no-op
when the user has no `user_stats` row. -/
def stats_inc_submissions_count (db : JudgeDbState) (uid : Nat) (now : Nat) :
    JudgeDbState :=
  match db.user_stats uid with
  | some st =>
    { db with
      user_stats := fun u =>
        if u = uid then
          some { st with submissions_count := st.submissions_count + 1, updated_at := now }
        else db.user_stats u }
  | none => db

/-- The `INSERT ... ON CONFLICT (user_id) DO NOTHING` of
`update_user_stats_on_judge_completion` (migration lines 285-288): create
the `user_stats` row with `problems_solved = CASE WHEN is_solved THEN 1 ELSE
0 END` and `submissions_count = 1` when it is absent; the remaining columns
take their table defaults (`streak_days 0`, `rank_score 0.0`). -/
def stats_insert_if_absent (db : JudgeDbState) (uid : Nat) (is_solved : Bool)
    (now : Nat) : JudgeDbState :=
  match db.user_stats uid with
  | some _ => db
  | none =>
    { db with
      user_stats := fun u =>
        if u = uid then
          some { problems_solved := if is_solved then 1 else 0
                 submissions_count := 1
                 streak_days := 0
                 rank_score := 0
                 updated_at := now }
        else db.user_stats u }

/-- The `IF is_solved THEN ... END IF` block of
`update_user_stats_on_judge_completion` (migration lines 256-276): the
conditional `user_problem_status` UPDATE followed by the `IF FOUND`
increment of `problems_solved`. -/
def judge_completion_solved_stage (db : JudgeDbState)
    (submission_record : SubmissionRow) (is_solved : Bool) (now : Nat) :
    JudgeDbState :=
  let p1 := if is_solved then ups_solved_update db submission_record now
            else (db, false)
  if p1.2 then stats_inc_problems_solved p1.1 submission_record.user_id now
  else p1.1

/-- The body of the `update_user_stats_on_judge_completion` trigger
(migration lines 238-293), fired AFTER UPDATE on `judge_processes`.
`submission_record` is the row the `SELECT * INTO submission_record` fetch
returns; the `NOT NULL` foreign key `judge_processes.submission_id` means it
always exists, so it is passed directly.  `old_status`/`new_status` are
`OLD.status`/`NEW.status` (both `NOT NULL`, so the `OLD.status IS NULL`
disjunct of the guard is dead and the guard is `NEW.status = 'succeeded' AND
OLD.status != 'succeeded'`); `new_result` is the nullable `NEW.result`. -/
def update_user_stats_on_judge_completion (db : JudgeDbState)
    (submission_record : SubmissionRow) (old_status new_status : String)
    (new_result : Option String) (now : Nat) : JudgeDbState :=
  if new_status = "succeeded" ∧ old_status ≠ "succeeded" then
    stats_insert_if_absent
      (stats_inc_submissions_count
        (judge_completion_solved_stage db submission_record
          (is_solved_check new_result submission_record.score) now)
        submission_record.user_id now)
      submission_record.user_id
      (is_solved_check new_result submission_record.score) now
  else db

/-- The body of the `update_user_problem_status_on_submission` trigger
(migration lines 217-231), fired AFTER INSERT on `submissions`:
`INSERT INTO user_problem_status (user_id, problem_id, submission_count,
last_submission_id) VALUES (NEW.user_id, NEW.problem_id, 1, NEW.id)
ON CONFLICT (user_id, problem_id) DO UPDATE SET submission_count =
submission_count + 1, last_submission_id = NEW.id, updated_at = NOW()`.
A freshly inserted row takes the table defaults for the other columns:
`solved FALSE`, `solved_at NULL`, `best_score NULL`. -/
def update_user_problem_status_on_submission (db : JudgeDbState)
    (new : SubmissionRow) (now : Nat) : JudgeDbState :=
  match db.user_problem_status new.upsKey with
  | some row =>
    { db with
      user_problem_status := fun k =>
        if k = new.upsKey then
          some { row with
                 submission_count := row.submission_count + 1
                 last_submission_id := some new.id
                 updated_at := now }
        else db.user_problem_status k }
  | none =>
    { db with
      user_problem_status := fun k =>
        if k = new.upsKey then
          some { solved := false
                 solved_at := none
                 submission_count := 1
                 last_submission_id := some new.id
                 best_score := none
                 updated_at := now }
        else db.user_problem_status k }

/-- `submissions_count` of a user, reading an absent `user_stats` row as 0
(the count the row would be created from). -/
def submissionsCountOf (db : JudgeDbState) (uid : Nat) : Int :=
  (db.user_stats uid).elim 0 (·.submissions_count)

/-- `problems_solved` of a user, reading an absent `user_stats` row as 0. -/
def problemsSolvedOf (db : JudgeDbState) (uid : Nat) : Int :=
  (db.user_stats uid).elim 0 (·.problems_solved)

/-- `solved` of a `(user, problem)` pair, reading an absent row as false. -/
def solvedOf (db : JudgeDbState) (k : Nat × Nat) : Bool :=
  (db.user_problem_status k).elim false (·.solved)

/-- `best_score` of a `(user, problem)` pair (`none` when the row is absent
or its `best_score` is NULL). -/
def bestScoreOf (db : JudgeDbState) (k : Nat × Nat) : Option Int :=
  (db.user_problem_status k).bind (·.best_score)

/-! ### Trigger event sequences -/

/-- One firing of a judge-domain business-logic trigger: an AFTER INSERT on
`submissions` or an AFTER UPDATE on `judge_processes`. -/
inductive JudgeEvent where
  | submission_insert (new : SubmissionRow) (now : Nat)
  | process_update (submission_record : SubmissionRow)
      (old_status new_status : String) (new_result : Option String) (now : Nat)

/-- Apply one trigger firing to the shared aggregate state. -/
def applyJudgeEvent (db : JudgeDbState) : JudgeEvent → JudgeDbState
  | .submission_insert new now =>
      update_user_problem_status_on_submission db new now
  | .process_update sub o n r now =>
      update_user_stats_on_judge_completion db sub o n r now

/-- Apply a sequence of trigger firings in order. -/
def applyJudgeEvents (db : JudgeDbState) (evs : List JudgeEvent) :
    JudgeDbState :=
  evs.foldl applyJudgeEvent db

/-- Order on nullable scores used to state that `best_score` never
decreases: an absent value is below everything, and a present value may only
grow. -/
def bestLE : Option Int → Option Int → Bool
  | none, _ => true
  | some _, none => false
  | some a, some b => decide (a ≤ b)

/-! ### Schema CHECK constraints (judge domain migration) -/

/-- A row of `public.judge_processes` (judge domain migration, lines
55-64). -/
structure JudgeProcessRow where
  id : Nat
  submission_id : Nat
  status : String
  result : Option String
  execution_time_ms : Option Int
  memory_usage_kb : Option Int
  deriving DecidableEq

/-- A row of `public.judge_case_results` (judge domain migration, lines
72-84). -/
structure CaseResultRow where
  id : Nat
  judge_process_id : Nat
  judge_case_id : Nat
  status : String
  result : String
  error : Option String
  warning : Option String
  processing_time_ms : Option Int
  memory_usage_kb : Option Int
  deriving DecidableEq

/-- The `judge_processes_status_check` constraint (migration lines 67-69):
`CHECK (status IN ('pending', 'running', 'succeeded', 'failed', 'error',
'other'))`. -/
def judge_processes_status_check (s : String) : Bool :=
  decide (s = "pending") || decide (s = "running") || decide (s = "succeeded")
    || decide (s = "failed") || decide (s = "error") || decide (s = "other")

/-- The `judge_case_results_status_check` constraint (migration lines
87-89): `CHECK (status IN ('AC', 'WA', 'RE', 'CE', 'TLE', 'MLE', 'IE'))`. -/
def judge_case_results_status_check (s : String) : Bool :=
  decide (s = "AC") || decide (s = "WA") || decide (s = "RE")
    || decide (s = "CE") || decide (s = "TLE") || decide (s = "MLE")
    || decide (s = "IE")

/-- A `judge_processes` row passes the table's CHECK constraint. -/
def judge_process_row_ok (r : JudgeProcessRow) : Bool :=
  judge_processes_status_check r.status

/-- A `judge_case_results` row passes the table's CHECK constraint. -/
def judge_case_result_row_ok (r : CaseResultRow) : Bool :=
  judge_case_results_status_check r.status

/-! ### Case Result persistence (spec-modelled) -/

/-- Two case-result rows target the same `(judge_process_id, judge_case_id)`
pair. -/
def samePair (a b : CaseResultRow) : Bool :=
  decide (a.judge_process_id = b.judge_process_id)
    && decide (a.judge_case_id = b.judge_case_id)

/-- Modelled from the spec: the Case Evaluator that persists `CaseResult`
rows is absent from `src/` (`src/judge-system` holds only
`requirements.txt`; the migration declares the `judge_case_results` table
without any writer).  Per the spec — "re-execution of a case within the same
process overwrites, it does not duplicate" — persistence is an upsert keyed
on `(judge_process_id, judge_case_id)`: an existing row for the pair is
overwritten in place (keeping its row id, as a SQL UPDATE would), otherwise
the new row is appended. -/
def persistCaseResult (table : List CaseResultRow) (new : CaseResultRow) :
    List CaseResultRow :=
  if table.any (fun r => samePair r new) then
    table.map (fun r => if samePair r new then { new with id := r.id } else r)
  else table ++ [new]

/-- The number of rows a table holds for one
`(judge_process_id, judge_case_id)` pair. -/
def pairCount (table : List CaseResultRow) (pid cid : Nat) : Nat :=
  (table.filter (fun r =>
    decide (r.judge_process_id = pid) && decide (r.judge_case_id = cid))).length

/-! ### Frontend verdict aggregation (problem page) -/

/-- A per-case entry of the frontend judge response (`JudgeResult` in the
problem page; only the fields the verdict aggregation reads). -/
structure JudgeResult where
  id : String
  status : String
  deriving DecidableEq

/-- The frontend judge response (`JudgeResponse`): id, problem reference,
submitted code, per-case results, optional error. -/
structure JudgeResponse where
  id : String
  problemId : String
  code : String
  results : List JudgeResult
  error : Option String
  deriving DecidableEq

/-- `isAllPassed` of the problem page:
`result?.results?.every(r => r.status === 'AC') ?? false`, evaluated on a
present results list. -/
def isAllPassed (results : List JudgeResult) : Bool :=
  results.all (fun r => decide (r.status = "AC"))

/-- The toast pass count of the problem page:
`result.results.filter(r => r.status === 'AC').length`. -/
def passCount (results : List JudgeResult) : Nat :=
  (results.filter (fun r => decide (r.status = "AC"))).length

/-- The three result panels the problem page can render for a judge
response. -/
inductive ResultPanel where
  | errorBox (msg : String)
  | allPassed (results : List JudgeResult)
  | someFailed (results : List JudgeResult)
  deriving DecidableEq

/-- The result-rendering decision of the problem page (lines 177-187 of the
page component): an error response renders the error box, otherwise the
panel is green (all passed) exactly when `isAllPassed` holds. -/
def renderResult (resp : JudgeResponse) : ResultPanel :=
  match resp.error with
  | some e => .errorBox e
  | none =>
    if isAllPassed resp.results then .allPassed resp.results
    else .someFailed resp.results

/-! ### The `useJudgeResult` polling hook -/

/-- The shape of `judgeStatus.results` the hook distinguishes (lines
82-101): an object already carrying a `results` property, a plain array of
case results, or a single bare result object. -/
inductive ResultsPayload where
  | wrapped (resp : JudgeResponse)
  | arr (rs : List JudgeResult)
  | single (r : JudgeResult)
  deriving DecidableEq

/-- A fetched judge status (`fetchJudgeStatus` response). -/
structure JudgeStatus where
  status : String
  results : Option ResultsPayload
  error : Option String
  deriving DecidableEq

/-- The hook's state: the last fetched status, the final stored result, and
the `processedIdsRef` set (a list). -/
structure HookState where
  judgeStatusState : Option JudgeStatus
  result : Option JudgeResponse
  processedIds : List String
  deriving DecidableEq

/-- The completion effect of the hook (lines 73-125): when the fetched
status is `completed` or `error`, add the judge id to the processed set and
store the final result, converting the backend payload to the standard
response shape; otherwise do nothing. -/
def completionEffect (judgeId code problemId : String) (s : HookState) :
    HookState :=
  match s.judgeStatusState with
  | none => s
  | some st =>
    if st.status = "completed" ∨ st.status = "error" then
      { s with
        processedIds := judgeId :: s.processedIds
        result := some
          (match st.results with
           | some (.wrapped resp) => resp
           | some (.arr rs) =>
             { id := judgeId, problemId := problemId, code := code
               results := rs, error := none }
           | some (.single r) =>
             { id := judgeId, problemId := problemId, code := code
               results := [r], error := none }
           | none =>
             match st.error with
             | some e =>
               { id := "error", problemId := problemId, code := code
                 results := [], error := some e }
             | none =>
               { id := "error", problemId := problemId, code := code
                 results := [], error := some "結果の形式が不正です" }) }
    else s

/-- One polling tick delivering a fetched status `st`: the fetch is guarded
by the hook (line 29: skip when the id is in `processedIdsRef`; lines 57-59:
no interval runs once `result` is set or the id is processed), then the
fetched status is stored and the completion effect runs.  Events are
serialized: the `isFetching` guard keeps at most one fetch in flight. -/
def fetchStep (judgeId code problemId : String) (s : HookState)
    (st : JudgeStatus) : HookState :=
  if s.processedIds.contains judgeId || s.result.isSome then s
  else completionEffect judgeId code problemId
    { s with judgeStatusState := some st }

/-- Fold a sequence of delivered statuses through the hook. -/
def runPolling (judgeId code problemId : String) (s : HookState)
    (sts : List JudgeStatus) : HookState :=
  sts.foldl (fetchStep judgeId code problemId) s

/-- Whether the polling effect (lines 56-70) would keep an interval running
for `judgeId` in state `s`: it returns early (no interval) when the id is
processed or a result is already stored. -/
def pollingActive (judgeId : String) (s : HookState) : Bool :=
  !(s.processedIds.contains judgeId) && !s.result.isSome

/-! ### Concrete states used by the witnesses -/

/-- A database with no `user_stats` and no `user_problem_status` rows. -/
def emptyDb : JudgeDbState := ⟨fun _ => none, fun _ => none⟩

/-- A sample `user_stats` row for user 1. -/
def exStatsRow : UserStatsRow := ⟨3, 7, 0, 0, 0⟩

/-- A sample unsolved `user_problem_status` row with a prior best score of
50.00 (5000 hundredths). -/
def exUpsRowUnsolved : UserProblemStatusRow := ⟨false, none, 2, some 5, some 5000, 0⟩

/-- A sample already-solved `user_problem_status` row. -/
def exUpsRowSolved : UserProblemStatusRow := ⟨true, some 1, 2, some 5, some 12000, 0⟩

/-- A database where user 1 has stats and an unsolved status row for
problem 1. -/
def exDb : JudgeDbState :=
  ⟨fun u => if u = 1 then some exStatsRow else none,
   fun k => if k = (1, 1) then some exUpsRowUnsolved else none⟩

/-- A database where user 1 has stats and an already-solved status row for
problem 1. -/
def exDbSolved : JudgeDbState :=
  ⟨fun u => if u = 1 then some exStatsRow else none,
   fun k => if k = (1, 1) then some exUpsRowSolved else none⟩

/-- A sample submission by user 1 for problem 1 with a full score of 100.00
(10000 hundredths). -/
def exSub : SubmissionRow := ⟨10, 1, 1, "print(1)", "python", "completed", some 10000⟩

/-- A sample partial-score submission (2 of 3 cases AC, 66.67 points = 6667
hundredths) by user 1 for problem 1. -/
def exSubPartial : SubmissionRow :=
  ⟨11, 1, 1, "print(2)", "python", "completed", some 6667⟩

/-- A sample stored case result: process 1, case 1, verdict WA. -/
def exCaseResultWA : CaseResultRow :=
  ⟨100, 1, 1, "WA", "wrong answer", none, none, some 12, some 256⟩

/-- A sample re-executed case result for the same pair: process 1, case 1,
verdict AC. -/
def exCaseResultAC : CaseResultRow :=
  ⟨101, 1, 1, "AC", "accepted", none, none, some 10, some 256⟩

/-- A sample completed judge status carrying an array payload. -/
def exCompletedStatus : JudgeStatus :=
  ⟨"completed", some (.arr [⟨"r1", "AC"⟩]), none⟩

/-- A fresh hook state: nothing fetched, nothing stored, nothing
processed. -/
def exHookStart : HookState := ⟨none, none, []⟩

/-! ### Frame lemmas for the trigger stages -/

theorem ups_solved_update_user_stats (db : JudgeDbState)
    (sub : SubmissionRow) (now : Nat) :
    ((ups_solved_update db sub now).1).user_stats = db.user_stats := by
  unfold ups_solved_update
  split
  · split <;> rfl
  · rfl

theorem stats_inc_problems_solved_ups (db : JudgeDbState) (uid now : Nat) :
    (stats_inc_problems_solved db uid now).user_problem_status
      = db.user_problem_status := by
  unfold stats_inc_problems_solved
  split <;> rfl

theorem stats_inc_submissions_count_ups (db : JudgeDbState) (uid now : Nat) :
    (stats_inc_submissions_count db uid now).user_problem_status
      = db.user_problem_status := by
  unfold stats_inc_submissions_count
  split <;> rfl

theorem stats_insert_if_absent_ups (db : JudgeDbState) (uid : Nat)
    (s : Bool) (now : Nat) :
    (stats_insert_if_absent db uid s now).user_problem_status
      = db.user_problem_status := by
  unfold stats_insert_if_absent
  split <;> rfl

theorem stats_inc_problems_solved_subsCount (db : JudgeDbState)
    (uid now u : Nat) :
    submissionsCountOf (stats_inc_problems_solved db uid now) u
      = submissionsCountOf db u := by
  unfold stats_inc_problems_solved submissionsCountOf
  cases h : db.user_stats uid with
  | none => rfl
  | some st =>
    by_cases hu : u = uid
    · subst hu
      simp [h]
    · simp [hu]

theorem stats_inc_problems_solved_none (db : JudgeDbState) (uid now u : Nat) :
    (stats_inc_problems_solved db uid now).user_stats u = none
      ↔ db.user_stats u = none := by
  unfold stats_inc_problems_solved
  cases h : db.user_stats uid with
  | none => rfl
  | some st =>
    by_cases hu : u = uid
    · subst hu
      simp [h]
    · simp [hu]

theorem solved_stage_subsCount (db : JudgeDbState) (sub : SubmissionRow)
    (s : Bool) (now : Nat) (u : Nat) :
    submissionsCountOf (judge_completion_solved_stage db sub s now) u
      = submissionsCountOf db u := by
  cases s with
  | false => rfl
  | true =>
    show submissionsCountOf
        (if (ups_solved_update db sub now).2 = true then
          stats_inc_problems_solved (ups_solved_update db sub now).1
            sub.user_id now
        else (ups_solved_update db sub now).1) u
      = submissionsCountOf db u
    split
    · rw [stats_inc_problems_solved_subsCount]
      unfold submissionsCountOf
      rw [ups_solved_update_user_stats]
    · unfold submissionsCountOf
      rw [ups_solved_update_user_stats]

theorem solved_stage_none (db : JudgeDbState) (sub : SubmissionRow)
    (s : Bool) (now : Nat) (u : Nat) :
    (judge_completion_solved_stage db sub s now).user_stats u = none
      ↔ db.user_stats u = none := by
  cases s with
  | false => exact Iff.rfl
  | true =>
    show (if (ups_solved_update db sub now).2 = true then
          stats_inc_problems_solved (ups_solved_update db sub now).1
            sub.user_id now
        else (ups_solved_update db sub now).1).user_stats u = none
      ↔ db.user_stats u = none
    split
    · rw [stats_inc_problems_solved_none]
      rw [ups_solved_update_user_stats]
    · rw [ups_solved_update_user_stats]

/-- Applying the unconditional `submissions_count` UPDATE followed by the
guarded INSERT bumps the user's `submissions_count` by exactly one, creating
the row with `submissions_count = 1` when it was absent. -/
theorem submissions_bump (db : JudgeDbState) (uid : Nat) (s : Bool)
    (now : Nat) :
    submissionsCountOf
        (stats_insert_if_absent (stats_inc_submissions_count db uid now)
          uid s now) uid
      = submissionsCountOf db uid + 1
    ∧ (db.user_stats uid = none →
        ∃ st,
          (stats_insert_if_absent (stats_inc_submissions_count db uid now)
              uid s now).user_stats uid = some st
          ∧ st.submissions_count = 1) := by
  unfold stats_insert_if_absent stats_inc_submissions_count submissionsCountOf
  cases h : db.user_stats uid with
  | none => simp [h]
  | some st => simp [h]

/-! ### Claim theorems -/

/-- C1: when a judge process's status transitions into `succeeded`, the
`update_user_stats_on_judge_completion` projection increments the owning
user's `user_stats.submissions_count` by exactly one, creating the
`user_stats` row with `submissions_count = 1` when it does not yet exist;
re-applying the projection to a process whose status is already `succeeded`
(a redelivered event, `OLD.status = 'succeeded'`) changes neither
`submissions_count` nor any other `user_stats` or `user_problem_status`
field (the state is unchanged). -/
theorem projector_increments_submissions_count_once (db : JudgeDbState)
    (sub : SubmissionRow) (old_status : String) (new_result : Option String)
    (now : Nat) :
    (old_status ≠ "succeeded" →
      submissionsCountOf
          (update_user_stats_on_judge_completion db sub old_status "succeeded"
            new_result now) sub.user_id
        = submissionsCountOf db sub.user_id + 1
      ∧ (db.user_stats sub.user_id = none →
          ∃ st,
            (update_user_stats_on_judge_completion db sub old_status
                "succeeded" new_result now).user_stats sub.user_id = some st
            ∧ st.submissions_count = 1))
    ∧ (∀ new_status, old_status = "succeeded" →
        update_user_stats_on_judge_completion db sub old_status new_status
          new_result now = db) := by
  constructor
  · intro hold
    unfold update_user_stats_on_judge_completion
    rw [if_pos ⟨rfl, hold⟩]
    have hb := submissions_bump
      (judge_completion_solved_stage db sub
        (is_solved_check new_result sub.score) now)
      sub.user_id (is_solved_check new_result sub.score) now
    constructor
    · rw [hb.1, solved_stage_subsCount]
    · intro hnone
      exact hb.2 ((solved_stage_none db sub _ now sub.user_id).mpr hnone)
  · intro new_status hold
    unfold update_user_stats_on_judge_completion
    rw [if_neg (fun hc => hc.2 hold)]

/-- Witness for C1: with user 1 holding 7 submissions, a
`running → succeeded` transition yields 8 and a redelivered
`succeeded → succeeded` update is a no-op; from an empty database the
`user_stats` row is created with `submissions_count = 1`. -/
theorem projector_increments_submissions_count_once_witness :
    (submissionsCountOf
        (update_user_stats_on_judge_completion exDb exSub "running"
          "succeeded" (some "AC") 5) exSub.user_id
      = submissionsCountOf exDb exSub.user_id + 1)
    ∧ (update_user_stats_on_judge_completion exDb exSub "succeeded"
        "succeeded" (some "AC") 5 = exDb)
    ∧ (∃ st,
        (update_user_stats_on_judge_completion emptyDb exSub "running"
            "succeeded" (some "AC") 5).user_stats exSub.user_id = some st
        ∧ st.submissions_count = 1) := by
  refine ⟨((projector_increments_submissions_count_once exDb exSub "running"
      (some "AC") 5).1 (by decide)).1,
    (projector_increments_submissions_count_once exDb exSub "succeeded"
      (some "AC") 5).2 "succeeded" rfl,
    ((projector_increments_submissions_count_once emptyDb exSub "running"
      (some "AC") 5).1 (by decide)).2 rfl⟩

theorem bestLE_refl (a : Option Int) : bestLE a a = true := by
  cases a <;> simp [bestLE]

theorem bestLE_trans (a b c : Option Int) (h1 : bestLE a b = true)
    (h2 : bestLE b c = true) : bestLE a c = true := by
  cases a with
  | none => simp [bestLE]
  | some x =>
    cases b with
    | none => simp [bestLE] at h1
    | some y =>
      cases c with
      | none => simp [bestLE] at h2
      | some z =>
        simp only [bestLE, decide_eq_true_eq] at h1 h2 ⊢
        exact le_trans h1 h2

theorem ups_solved_update_mono (db : JudgeDbState) (sub : SubmissionRow)
    (now : Nat) (k : Nat × Nat) :
    (solvedOf db k = true →
      solvedOf ((ups_solved_update db sub now).1) k = true)
    ∧ bestLE (bestScoreOf db k)
        (bestScoreOf ((ups_solved_update db sub now).1) k) = true := by
  unfold ups_solved_update
  cases h : db.user_problem_status sub.upsKey with
  | none => exact ⟨fun hs => hs, bestLE_refl _⟩
  | some row =>
    dsimp only
    by_cases hsr : row.solved = false
    · rw [if_pos hsr]
      by_cases hk : k = sub.upsKey
      · subst hk
        constructor
        · intro hs
          simp [solvedOf, solvedRowUpdate]
        · cases hb : row.best_score with
          | none => simp [bestScoreOf, h, bestLE, solvedRowUpdate, hb]
          | some b =>
            simp [bestScoreOf, h, bestLE, solvedRowUpdate, hb, le_max_left]
      · constructor
        · intro hs
          simpa [solvedOf, hk] using hs
        · simp only [bestScoreOf]
          simp only [hk, if_false]
          exact bestLE_refl _
    · rw [if_neg hsr]
      exact ⟨fun hs => hs, bestLE_refl _⟩
  

theorem solvedOf_congr {X Y : JudgeDbState}
    (h : X.user_problem_status = Y.user_problem_status) (k : Nat × Nat) :
    solvedOf X k = solvedOf Y k := by
  unfold solvedOf
  rw [h]

theorem bestScoreOf_congr {X Y : JudgeDbState}
    (h : X.user_problem_status = Y.user_problem_status) (k : Nat × Nat) :
    bestScoreOf X k = bestScoreOf Y k := by
  unfold bestScoreOf
  rw [h]

theorem problemsSolvedOf_congr {X Y : JudgeDbState}
    (h : X.user_stats = Y.user_stats) (u : Nat) :
    problemsSolvedOf X u = problemsSolvedOf Y u := by
  unfold problemsSolvedOf
  rw [h]

theorem stats_inc_problems_solved_ps_mono (db : JudgeDbState)
    (uid now u : Nat) :
    problemsSolvedOf db u
      ≤ problemsSolvedOf (stats_inc_problems_solved db uid now) u := by
  unfold stats_inc_problems_solved problemsSolvedOf
  cases h : db.user_stats uid with
  | none => exact le_refl _
  | some st =>
    by_cases hu : u = uid
    · subst hu
      simp [h]
    · simp [hu]

theorem stats_inc_submissions_count_ps (db : JudgeDbState) (uid now u : Nat) :
    problemsSolvedOf (stats_inc_submissions_count db uid now) u
      = problemsSolvedOf db u := by
  unfold stats_inc_submissions_count problemsSolvedOf
  cases h : db.user_stats uid with
  | none => rfl
  | some st =>
    by_cases hu : u = uid
    · subst hu
      simp [h]
    · simp [hu]

theorem stats_insert_if_absent_ps_mono (db : JudgeDbState) (uid : Nat)
    (s : Bool) (now u : Nat) :
    problemsSolvedOf db u
      ≤ problemsSolvedOf (stats_insert_if_absent db uid s now) u := by
  unfold stats_insert_if_absent problemsSolvedOf
  cases h : db.user_stats uid with
  | some st => exact le_refl _
  | none =>
    by_cases hu : u = uid
    · subst hu
      simp [h]
      cases s <;> simp
    · simp [hu]

theorem solved_stage_ups_mono (db : JudgeDbState) (sub : SubmissionRow)
    (s : Bool) (now : Nat) (k : Nat × Nat) :
    (solvedOf db k = true →
      solvedOf (judge_completion_solved_stage db sub s now) k = true)
    ∧ bestLE (bestScoreOf db k)
        (bestScoreOf (judge_completion_solved_stage db sub s now) k)
      = true := by
  cases s with
  | false => exact ⟨fun hs => hs, bestLE_refl _⟩
  | true =>
    show (solvedOf db k = true →
      solvedOf (if (ups_solved_update db sub now).2 = true then
          stats_inc_problems_solved (ups_solved_update db sub now).1
            sub.user_id now
        else (ups_solved_update db sub now).1) k = true)
      ∧ bestLE (bestScoreOf db k)
          (bestScoreOf (if (ups_solved_update db sub now).2 = true then
            stats_inc_problems_solved (ups_solved_update db sub now).1
              sub.user_id now
          else (ups_solved_update db sub now).1) k) = true
    by_cases hf : (ups_solved_update db sub now).2 = true
    · rw [if_pos hf]
      constructor
      · rw [solvedOf_congr (stats_inc_problems_solved_ups _ _ _) k]
        exact (ups_solved_update_mono db sub now k).1
      · rw [bestScoreOf_congr (stats_inc_problems_solved_ups _ _ _) k]
        exact (ups_solved_update_mono db sub now k).2
    · rw [if_neg hf]
      exact ups_solved_update_mono db sub now k

theorem solved_stage_ps_mono (db : JudgeDbState) (sub : SubmissionRow)
    (s : Bool) (now u : Nat) :
    problemsSolvedOf db u
      ≤ problemsSolvedOf (judge_completion_solved_stage db sub s now) u := by
  cases s with
  | false => exact le_refl _
  | true =>
    show problemsSolvedOf db u
      ≤ problemsSolvedOf (if (ups_solved_update db sub now).2 = true then
          stats_inc_problems_solved (ups_solved_update db sub now).1
            sub.user_id now
        else (ups_solved_update db sub now).1) u
    split
    · calc problemsSolvedOf db u
          = problemsSolvedOf (ups_solved_update db sub now).1 u :=
            (problemsSolvedOf_congr (ups_solved_update_user_stats _ _ _) u).symm
        _ ≤ _ := stats_inc_problems_solved_ps_mono _ _ _ _
    · exact le_of_eq
        (problemsSolvedOf_congr (ups_solved_update_user_stats _ _ _) u).symm

theorem submission_trigger_mono (db : JudgeDbState) (new : SubmissionRow)
    (now : Nat) (k : Nat × Nat) :
    (solvedOf db k = true →
      solvedOf (update_user_problem_status_on_submission db new now) k = true)
    ∧ bestLE (bestScoreOf db k)
        (bestScoreOf (update_user_problem_status_on_submission db new now) k)
      = true
    ∧ (update_user_problem_status_on_submission db new now).user_stats
      = db.user_stats := by
  unfold update_user_problem_status_on_submission
  cases h : db.user_problem_status new.upsKey with
  | some row =>
    dsimp only
    by_cases hk : k = new.upsKey
    · subst hk
      refine ⟨fun hs => ?_, ?_, rfl⟩
      · simpa [solvedOf, h] using hs
      · simp [bestScoreOf, h]
        exact bestLE_refl _
    · refine ⟨fun hs => ?_, ?_, rfl⟩
      · simpa [solvedOf, hk] using hs
      · simp [bestScoreOf, hk]
        exact bestLE_refl _
  | none =>
    dsimp only
    by_cases hk : k = new.upsKey
    · subst hk
      refine ⟨fun hs => ?_, ?_, rfl⟩
      · simp [solvedOf, h] at hs
      · simp [bestScoreOf, h, bestLE]
    · refine ⟨fun hs => ?_, ?_, rfl⟩
      · simpa [solvedOf, hk] using hs
      · simp [bestScoreOf, hk]
        exact bestLE_refl _

theorem applyJudgeEvent_mono (db : JudgeDbState) (ev : JudgeEvent)
    (k : Nat × Nat) (u : Nat) :
    (solvedOf db k = true → solvedOf (applyJudgeEvent db ev) k = true)
    ∧ bestLE (bestScoreOf db k) (bestScoreOf (applyJudgeEvent db ev) k) = true
    ∧ problemsSolvedOf db u ≤ problemsSolvedOf (applyJudgeEvent db ev) u := by
  cases ev with
  | submission_insert new now =>
    have h := submission_trigger_mono db new now k
    exact ⟨h.1, h.2.1, le_of_eq (problemsSolvedOf_congr h.2.2 u).symm⟩
  | process_update sub o n r now =>
    show (solvedOf db k = true →
        solvedOf (update_user_stats_on_judge_completion db sub o n r now) k
          = true)
      ∧ bestLE (bestScoreOf db k)
          (bestScoreOf
            (update_user_stats_on_judge_completion db sub o n r now) k) = true
      ∧ problemsSolvedOf db u
        ≤ problemsSolvedOf
            (update_user_stats_on_judge_completion db sub o n r now) u
    unfold update_user_stats_on_judge_completion
    by_cases hg : n = "succeeded" ∧ o ≠ "succeeded"
    · rw [if_pos hg]
      have hups : (stats_insert_if_absent
          (stats_inc_submissions_count
            (judge_completion_solved_stage db sub
              (is_solved_check r sub.score) now) sub.user_id now)
          sub.user_id (is_solved_check r sub.score) now).user_problem_status
          = (judge_completion_solved_stage db sub
              (is_solved_check r sub.score) now).user_problem_status := by
        rw [stats_insert_if_absent_ups, stats_inc_submissions_count_ups]
      refine ⟨?_, ?_, ?_⟩
      · rw [solvedOf_congr hups k]
        exact (solved_stage_ups_mono db sub _ now k).1
      · rw [bestScoreOf_congr hups k]
        exact (solved_stage_ups_mono db sub _ now k).2
      · calc problemsSolvedOf db u
            ≤ problemsSolvedOf (judge_completion_solved_stage db sub
                (is_solved_check r sub.score) now) u :=
              solved_stage_ps_mono db sub _ now u
          _ = problemsSolvedOf (stats_inc_submissions_count
                (judge_completion_solved_stage db sub
                  (is_solved_check r sub.score) now) sub.user_id now) u :=
              (stats_inc_submissions_count_ps _ _ _ _).symm
          _ ≤ _ := stats_insert_if_absent_ps_mono _ _ _ _ _
    · rw [if_neg hg]
      exact ⟨fun hs => hs, bestLE_refl _, le_refl _⟩

/-- C2: over every sequence of trigger firings, once
`user_problem_status.solved` is true for a `(user, problem)` pair no later
firing sets it back to false, `best_score` never decreases (an absent score
may only become present, a present score may only grow), and
`user_stats.problems_solved` never decreases. -/
theorem projection_monotonic (db : JudgeDbState) (evs : List JudgeEvent)
    (k : Nat × Nat) (u : Nat) :
    (solvedOf db k = true → solvedOf (applyJudgeEvents db evs) k = true)
    ∧ bestLE (bestScoreOf db k) (bestScoreOf (applyJudgeEvents db evs) k)
      = true
    ∧ problemsSolvedOf db u ≤ problemsSolvedOf (applyJudgeEvents db evs) u := by
  induction evs generalizing db with
  | nil => exact ⟨fun hs => hs, bestLE_refl _, le_refl _⟩
  | cons ev rest ih =>
    have h1 := applyJudgeEvent_mono db ev k u
    have h2 := ih (applyJudgeEvent db ev)
    refine ⟨fun hs => h2.1 (h1.1 hs), ?_, le_trans h1.2.2 h2.2.2⟩
    exact bestLE_trans _ _ _ h1.2.1 h2.2.1

/-- Witness for C2: user 1 solved problem 1 with best score 120; after a
further submission insert and a lower-scoring success, the pair stays
solved, the best score has not decreased and `problems_solved` has not
decreased. -/
theorem projection_monotonic_witness :
    (solvedOf exDbSolved (1, 1) = true →
      solvedOf (applyJudgeEvents exDbSolved
        [.submission_insert exSubPartial 6,
         .process_update exSubPartial "running" "succeeded" (some "WA") 7])
        (1, 1) = true)
    ∧ bestLE (bestScoreOf exDbSolved (1, 1))
        (bestScoreOf (applyJudgeEvents exDbSolved
          [.submission_insert exSubPartial 6,
           .process_update exSubPartial "running" "succeeded" (some "WA") 7])
          (1, 1)) = true
    ∧ problemsSolvedOf exDbSolved 1
        ≤ problemsSolvedOf (applyJudgeEvents exDbSolved
            [.submission_insert exSubPartial 6,
             .process_update exSubPartial "running" "succeeded" (some "WA") 7])
            1 :=
  projection_monotonic exDbSolved
    [.submission_insert exSubPartial 6,
     .process_update exSubPartial "running" "succeeded" (some "WA") 7] (1, 1) 1

theorem stats_chain_ps_inc (db : JudgeDbState) (uid now : Nat) :
    problemsSolvedOf
        (stats_insert_if_absent
          (stats_inc_submissions_count
            (stats_inc_problems_solved db uid now) uid now) uid true now) uid
      = problemsSolvedOf db uid + 1 := by
  unfold stats_insert_if_absent stats_inc_submissions_count
    stats_inc_problems_solved problemsSolvedOf
  cases h : db.user_stats uid with
  | none => simp [h]
  | some st => simp [h]

theorem stats_inc_submissions_count_isSome (db : JudgeDbState)
    (uid now : Nat) :
    ((stats_inc_submissions_count db uid now).user_stats uid).isSome
      = (db.user_stats uid).isSome := by
  unfold stats_inc_submissions_count
  cases h : db.user_stats uid with
  | none => simp [h]
  | some st => simp [h]

theorem stats_insert_if_absent_of_isSome (db : JudgeDbState) (uid : Nat)
    (s : Bool) (now : Nat) (h : (db.user_stats uid).isSome = true) :
    stats_insert_if_absent db uid s now = db := by
  unfold stats_insert_if_absent
  cases hu : db.user_stats uid with
  | none => rw [hu] at h; simp at h
  | some st => rfl

/-- C3: when a judge process transitions into `succeeded` and the trigger's
solved condition holds (`NEW.result = 'AC'` or the submission's score is at
least 100.0), then for a `(user, problem)` pair whose row is not yet marked
solved the projection marks it solved, stamps `solved_at`, raises
`best_score` to the maximum of the current and the new score, and increments
`user_stats.problems_solved` by exactly one; for a pair already marked
solved (whose owner has a `user_stats` row, as every trigger firing that
marks a pair solved guarantees) none of `solved`, `solved_at`, `best_score`
or `problems_solved` change. -/
theorem solved_transition_projection (db : JudgeDbState)
    (sub : SubmissionRow) (old_status : String) (new_result : Option String)
    (now : Nat) (hold : old_status ≠ "succeeded")
    (hsolve : is_solved_check new_result sub.score = true) :
    (∀ row, db.user_problem_status sub.upsKey = some row →
      row.solved = false →
      (update_user_stats_on_judge_completion db sub old_status "succeeded"
          new_result now).user_problem_status sub.upsKey
        = some (solvedRowUpdate row sub.score now)
      ∧ problemsSolvedOf
          (update_user_stats_on_judge_completion db sub old_status
            "succeeded" new_result now) sub.user_id
        = problemsSolvedOf db sub.user_id + 1)
    ∧ (∀ row, db.user_problem_status sub.upsKey = some row →
        row.solved = true → (db.user_stats sub.user_id).isSome = true →
        (update_user_stats_on_judge_completion db sub old_status "succeeded"
            new_result now).user_problem_status
          = db.user_problem_status
        ∧ problemsSolvedOf
            (update_user_stats_on_judge_completion db sub old_status
              "succeeded" new_result now) sub.user_id
          = problemsSolvedOf db sub.user_id) := by
  unfold update_user_stats_on_judge_completion
  rw [if_pos ⟨rfl, hold⟩, hsolve]
  constructor
  · intro row hrow hsf
    have hups_eq : ups_solved_update db sub now
        = ({ db with
             user_problem_status := fun k =>
               if k = sub.upsKey then
                 some (solvedRowUpdate row sub.score now)
               else db.user_problem_status k }, true) := by
      unfold ups_solved_update
      rw [hrow]
      dsimp only
      rw [if_pos hsf]
    have hstage : judge_completion_solved_stage db sub true now
        = stats_inc_problems_solved
            { db with
              user_problem_status := fun k =>
                if k = sub.upsKey then
                  some (solvedRowUpdate row sub.score now)
                else db.user_problem_status k } sub.user_id now := by
      show (if (ups_solved_update db sub now).2 = true then
          stats_inc_problems_solved (ups_solved_update db sub now).1
            sub.user_id now
        else (ups_solved_update db sub now).1) = _
      rw [hups_eq]
      rfl
    rw [hstage]
    constructor
    · have hu : (stats_insert_if_absent
          (stats_inc_submissions_count
            (stats_inc_problems_solved
              { db with
                user_problem_status := fun k =>
                  if k = sub.upsKey then
                    some (solvedRowUpdate row sub.score now)
                  else db.user_problem_status k } sub.user_id now)
            sub.user_id now) sub.user_id true now).user_problem_status
          = fun k =>
              if k = sub.upsKey then
                some (solvedRowUpdate row sub.score now)
              else db.user_problem_status k := by
        rw [stats_insert_if_absent_ups, stats_inc_submissions_count_ups,
          stats_inc_problems_solved_ups]
      rw [hu]
      simp
    · have hps := stats_chain_ps_inc
        { db with
          user_problem_status := fun k =>
            if k = sub.upsKey then
              some (solvedRowUpdate row sub.score now)
            else db.user_problem_status k } sub.user_id now
      rw [hps]
      rfl
  · intro row hrow hst hsome
    have hups_eq : ups_solved_update db sub now = (db, false) := by
      unfold ups_solved_update
      rw [hrow]
      dsimp only
      rw [if_neg (by simp [hst])]
    have hstage : judge_completion_solved_stage db sub true now = db := by
      show (if (ups_solved_update db sub now).2 = true then
          stats_inc_problems_solved (ups_solved_update db sub now).1
            sub.user_id now
        else (ups_solved_update db sub now).1) = _
      rw [hups_eq]
      rfl
    rw [hstage]
    have hins := stats_insert_if_absent_of_isSome
      (stats_inc_submissions_count db sub.user_id now) sub.user_id true now
      (by rw [stats_inc_submissions_count_isSome]; exact hsome)
    rw [hins]
    exact ⟨stats_inc_submissions_count_ups db sub.user_id now,
      stats_inc_submissions_count_ps db sub.user_id now sub.user_id⟩

/-- Witness for C3: a full-score success on the unsolved pair (1, 1) marks
it solved with best score 100 and bumps `problems_solved` from 3 to 4; on
the already-solved pair nothing changes. -/
theorem solved_transition_projection_witness :
    ((update_user_stats_on_judge_completion exDb exSub "running" "succeeded"
        (some "AC") 5).user_problem_status exSub.upsKey
      = some (solvedRowUpdate exUpsRowUnsolved exSub.score 5)
     ∧ problemsSolvedOf
        (update_user_stats_on_judge_completion exDb exSub "running"
          "succeeded" (some "AC") 5) exSub.user_id
      = problemsSolvedOf exDb exSub.user_id + 1)
    ∧ ((update_user_stats_on_judge_completion exDbSolved exSub "running"
        "succeeded" (some "AC") 5).user_problem_status
      = exDbSolved.user_problem_status
     ∧ problemsSolvedOf
        (update_user_stats_on_judge_completion exDbSolved exSub "running"
          "succeeded" (some "AC") 5) exSub.user_id
      = problemsSolvedOf exDbSolved exSub.user_id) :=
  ⟨(solved_transition_projection exDb exSub "running" (some "AC") 5
      (by decide) (by decide)).1 exUpsRowUnsolved (by decide) rfl,
   (solved_transition_projection exDbSolved exSub "running" (some "AC") 5
      (by decide) (by decide)).2 exUpsRowSolved (by decide) rfl
      (by decide)⟩

theorem stats_chain_ps_frozen (db : JudgeDbState) (uid now : Nat) :
    problemsSolvedOf
        (stats_insert_if_absent (stats_inc_submissions_count db uid now)
          uid false now) uid
      = problemsSolvedOf db uid := by
  unfold stats_insert_if_absent stats_inc_submissions_count problemsSolvedOf
  cases h : db.user_stats uid with
  | none => simp [h]
  | some st => simp [h]

/-- Counterexample for C5: user 1's prior best score is 50.00 (5000) and
the new submission scores 66.67 (6667, strictly higher) with a non-AC
result, yet after the `running → succeeded` transition `best_score` still
reads 50.00 — the projection did not update it, contradicting the claim
that `best_score` is updated whenever the new score is higher. -/
theorem nonsolving_best_score_counterexample :
    (5000 : Int) < 6667
    ∧ exSubPartial.score = some 6667
    ∧ bestScoreOf exDb (1, 1) = some 5000
    ∧ bestScoreOf
        (update_user_stats_on_judge_completion exDb exSubPartial "running"
          "succeeded" (some "WA") 7) (1, 1) = some 5000 := by
  refine ⟨by decide, rfl, rfl, ?_⟩
  decide

/-- C5 (amended): for a `succeeded` transition whose result is not solving
(result ≠ 'AC' and score below 100.0), the projection still increments
`submissions_count` by one and leaves `solved` false, but it does not touch
`best_score`: the whole `user_problem_status` table is unchanged (the
trigger only writes `best_score` inside its solved branch), and
`problems_solved` is unchanged as well. -/
theorem nonsolving_success_projection (db : JudgeDbState)
    (sub : SubmissionRow) (old_status : String) (new_result : Option String)
    (now : Nat) (hold : old_status ≠ "succeeded")
    (hns : is_solved_check new_result sub.score = false) :
    submissionsCountOf
        (update_user_stats_on_judge_completion db sub old_status "succeeded"
          new_result now) sub.user_id
      = submissionsCountOf db sub.user_id + 1
    ∧ (update_user_stats_on_judge_completion db sub old_status "succeeded"
        new_result now).user_problem_status = db.user_problem_status
    ∧ problemsSolvedOf
        (update_user_stats_on_judge_completion db sub old_status "succeeded"
          new_result now) sub.user_id
      = problemsSolvedOf db sub.user_id := by
  unfold update_user_stats_on_judge_completion
  rw [if_pos ⟨rfl, hold⟩, hns]
  have hstage : judge_completion_solved_stage db sub false now = db := rfl
  rw [hstage]
  refine ⟨(submissions_bump db sub.user_id false now).1, ?_,
    stats_chain_ps_frozen db sub.user_id now⟩
  rw [stats_insert_if_absent_ups, stats_inc_submissions_count_ups]

/-- Witness for C5 (amended): the 66.67-point WA submission bumps user 1's
`submissions_count` from 7 to 8 while leaving `user_problem_status` (hence
`solved` and `best_score`) and `problems_solved` unchanged. -/
theorem nonsolving_success_projection_witness :
    submissionsCountOf
        (update_user_stats_on_judge_completion exDb exSubPartial "running"
          "succeeded" (some "WA") 7) exSubPartial.user_id
      = submissionsCountOf exDb exSubPartial.user_id + 1
    ∧ (update_user_stats_on_judge_completion exDb exSubPartial "running"
        "succeeded" (some "WA") 7).user_problem_status
      = exDb.user_problem_status
    ∧ problemsSolvedOf
        (update_user_stats_on_judge_completion exDb exSubPartial "running"
          "succeeded" (some "WA") 7) exSubPartial.user_id
      = problemsSolvedOf exDb exSubPartial.user_id :=
  nonsolving_success_projection exDb exSubPartial "running" (some "WA") 7
    (by decide) (by decide)

/-- C6: an AFTER INSERT of a submission upserts the `(user_id, problem_id)`
row of `user_problem_status`: an existing row gets `submission_count`
incremented by exactly one and `last_submission_id` set to the new
submission's id (leaving `solved`, `solved_at` and `best_score` untouched);
an absent row is created with `submission_count = 1`, the new submission as
`last_submission_id`, and the table defaults `solved = false`,
`solved_at = NULL`, `best_score = NULL`.  Rows of other keys and the
`user_stats` table are untouched. -/
theorem submission_insert_upserts_status (db : JudgeDbState)
    (new : SubmissionRow) (now : Nat) :
    (∀ row, db.user_problem_status new.upsKey = some row →
      (update_user_problem_status_on_submission db new now).user_problem_status
          new.upsKey
        = some { row with
                 submission_count := row.submission_count + 1
                 last_submission_id := some new.id
                 updated_at := now })
    ∧ (db.user_problem_status new.upsKey = none →
        (update_user_problem_status_on_submission db new
            now).user_problem_status new.upsKey
          = some { solved := false
                   solved_at := none
                   submission_count := 1
                   last_submission_id := some new.id
                   best_score := none
                   updated_at := now })
    ∧ (∀ k, k ≠ new.upsKey →
        (update_user_problem_status_on_submission db new
            now).user_problem_status k = db.user_problem_status k)
    ∧ (update_user_problem_status_on_submission db new now).user_stats
      = db.user_stats := by
  unfold update_user_problem_status_on_submission
  cases h : db.user_problem_status new.upsKey with
  | some row =>
    dsimp only
    refine ⟨?_, ?_, ?_, rfl⟩
    · intro r hr
      have hrr : r = row := (Option.some.inj hr).symm
      subst hrr
      simp
    · intro hnone
      simp at hnone
    · intro k hk
      simp [hk]
  | none =>
    dsimp only
    refine ⟨?_, ?_, ?_, rfl⟩
    · intro r hr
      simp at hr
    · intro _
      simp
    · intro k hk
      simp [hk]

/-- Witness for C6: inserting submission 11 for the existing pair (1, 1)
bumps `submission_count` from 2 to 3 and points `last_submission_id` at 11;
inserting it into an empty database creates the row with
`submission_count = 1`. -/
theorem submission_insert_upserts_status_witness :
    (update_user_problem_status_on_submission exDb exSubPartial
        6).user_problem_status exSubPartial.upsKey
      = some { exUpsRowUnsolved with
               submission_count := exUpsRowUnsolved.submission_count + 1
               last_submission_id := some exSubPartial.id
               updated_at := 6 }
    ∧ (update_user_problem_status_on_submission emptyDb exSubPartial
          6).user_problem_status exSubPartial.upsKey
      = some { solved := false
               solved_at := none
               submission_count := 1
               last_submission_id := some exSubPartial.id
               best_score := none
               updated_at := 6 } :=
  ⟨(submission_insert_upserts_status exDb exSubPartial 6).1 exUpsRowUnsolved
      (by decide),
   (submission_insert_upserts_status emptyDb exSubPartial 6).2.1 rfl⟩

/-- C7: the submission-level all-passed verdict of the problem page is true
iff every case result in the list has status `AC`, and the toast's pass
count equals the total count exactly when the all-passed verdict holds. -/
theorem all_passed_iff_every_case_ac (rs : List JudgeResult) :
    (isAllPassed rs = true ↔ ∀ r ∈ rs, r.status = "AC")
    ∧ (passCount rs = rs.length ↔ isAllPassed rs = true) := by
  constructor
  · simp [isAllPassed, List.all_eq_true]
  · unfold passCount isAllPassed
    rw [← List.countP_eq_length_filter, List.countP_eq_length,
      List.all_eq_true]

/-- Witness for C7: evaluated on a two-case list with one WA, the verdict is
false and the pass count (1) differs from the total (2); on an all-AC list
both sides hold. -/
theorem all_passed_iff_every_case_ac_witness :
    (isAllPassed [⟨"r1", "AC"⟩, ⟨"r2", "WA"⟩] = true
      ↔ ∀ r ∈ [(⟨"r1", "AC"⟩ : JudgeResult), ⟨"r2", "WA"⟩], r.status = "AC")
    ∧ (passCount [⟨"r1", "AC"⟩, ⟨"r2", "WA"⟩]
        = (([⟨"r1", "AC"⟩, ⟨"r2", "WA"⟩] : List JudgeResult)).length
      ↔ isAllPassed [⟨"r1", "AC"⟩, ⟨"r2", "WA"⟩] = true) :=
  all_passed_iff_every_case_ac [⟨"r1", "AC"⟩, ⟨"r2", "WA"⟩]

/-- C8: a `judge_processes` row passes its CHECK constraint iff its status
is one of the six enumerated values, and a `judge_case_results` row passes
its CHECK constraint iff its status is one of the seven closed verdict
codes; no other status string can be stored. -/
theorem status_checks_closed_enumerations (r : JudgeProcessRow)
    (c : CaseResultRow) :
    (judge_process_row_ok r = true
      ↔ r.status ∈ (["pending", "running", "succeeded", "failed", "error",
          "other"] : List String))
    ∧ (judge_case_result_row_ok c = true
      ↔ c.status ∈ (["AC", "WA", "RE", "CE", "TLE", "MLE", "IE"]
          : List String)) := by
  constructor
  · simp [judge_process_row_ok, judge_processes_status_check, or_assoc]
  · simp [judge_case_result_row_ok, judge_case_results_status_check,
      or_assoc]

/-- Witness for C8: a `succeeded` process row and an `AC` case row pass
their checks; the iff evaluated at concrete rows. -/
theorem status_checks_closed_enumerations_witness :
    (judge_process_row_ok ⟨1, 1, "succeeded", some "AC", none, none⟩ = true
      ↔ (⟨1, 1, "succeeded", some "AC", none, none⟩
          : JudgeProcessRow).status ∈ (["pending", "running", "succeeded",
          "failed", "error", "other"] : List String))
    ∧ (judge_case_result_row_ok exCaseResultAC = true
      ↔ exCaseResultAC.status ∈ (["AC", "WA", "RE", "CE", "TLE", "MLE",
          "IE"] : List String)) :=
  status_checks_closed_enumerations ⟨1, 1, "succeeded", some "AC", none,
    none⟩ exCaseResultAC

/-- C10: a judge response with no error and an empty results list is
rendered as all-passed: the vacuous `every` makes `isAllPassed` true and the
page shows the green all-passed panel although zero cases were evaluated. -/
theorem empty_results_renders_all_passed (resp : JudgeResponse)
    (herr : resp.error = none) (hres : resp.results = []) :
    isAllPassed resp.results = true
    ∧ renderResult resp = .allPassed [] := by
  constructor
  · rw [hres]
    rfl
  · simp [renderResult, herr, hres, isAllPassed]

/-- Witness for C10: the concrete error-free empty response is rendered
all-passed. -/
theorem empty_results_renders_all_passed_witness :
    isAllPassed (JudgeResponse.mk "judge-1" "problem-1" "print()" [] none).results = true
    ∧ renderResult (JudgeResponse.mk "judge-1" "problem-1" "print()" [] none)
      = .allPassed [] :=
  empty_results_renders_all_passed ⟨"judge-1", "problem-1", "print()", [], none⟩
    rfl rfl

theorem fetchStep_of_result_some (judgeId code problemId : String)
    (s : HookState) (st : JudgeStatus) (r : JudgeResponse)
    (h : s.result = some r) :
    fetchStep judgeId code problemId s st = s := by
  simp [fetchStep, h]

theorem runPolling_result_frozen (judgeId code problemId : String)
    (sts : List JudgeStatus) :
    ∀ (s : HookState) (r : JudgeResponse), s.result = some r →
      (runPolling judgeId code problemId s sts).result = some r := by
  induction sts with
  | nil =>
    intro s r h
    simpa [runPolling] using h
  | cons st rest ih =>
    intro s r h
    show (rest.foldl (fetchStep judgeId code problemId)
      (fetchStep judgeId code problemId s st)).result = some r
    rw [fetchStep_of_result_some judgeId code problemId s st r h]
    exact ih s r h

/-- C9: in the `useJudgeResult` polling hook, once a fetched status with
status `completed` or `error` has been processed for a judge id, the id is
in the processed set, a later delivery for that id is a no-op (the fetch
guard skips processed ids, so the stored result is never overwritten), and
the polling interval guard is off; the stored result, once set, stays
unchanged across any further deliveries, so the result is set at most once
per judge id. -/
theorem judge_result_processed_once (judgeId code problemId : String)
    (s : HookState) (st : JudgeStatus) (sts : List JudgeStatus)
    (r : JudgeResponse) :
    (s.processedIds.contains judgeId = true →
      fetchStep judgeId code problemId s st = s)
    ∧ (s.result = some r →
        (runPolling judgeId code problemId s sts).result = some r)
    ∧ (s.processedIds.contains judgeId = false → s.result = none →
        (st.status = "completed" ∨ st.status = "error") →
        (fetchStep judgeId code problemId s st).processedIds.contains judgeId
          = true
        ∧ (fetchStep judgeId code problemId s st).result.isSome = true
        ∧ pollingActive judgeId (fetchStep judgeId code problemId s st)
          = false) := by
  refine ⟨?_, runPolling_result_frozen judgeId code problemId sts s r, ?_⟩
  · intro h
    unfold fetchStep
    rw [if_pos (show (s.processedIds.contains judgeId || s.result.isSome)
      = true by rw [h]; rfl)]
  · intro hc hr hst
    have hguard : (s.processedIds.contains judgeId || s.result.isSome)
        = false := by
      rw [hc, hr]
      rfl
    unfold fetchStep
    rw [if_neg (by rw [hguard]; simp)]
    unfold completionEffect
    dsimp only
    rw [if_pos hst]
    refine ⟨?_, rfl, ?_⟩
    · simp
    · simp [pollingActive]

/-- Witness for C9: a state that already processed judge id `j1` absorbs a
new delivery unchanged; a fresh state processing a completed status marks
`j1` processed, stores a result and stops polling; a stored result survives
a further delivery. -/
theorem judge_result_processed_once_witness :
    (fetchStep "j1" "print()" "p1" ⟨none, none, ["j1"]⟩ exCompletedStatus
      = ⟨none, none, ["j1"]⟩)
    ∧ ((runPolling "j1" "print()" "p1"
          ⟨none, some ⟨"j1", "p1", "print()", [], none⟩, []⟩
          [exCompletedStatus]).result
        = some ⟨"j1", "p1", "print()", [], none⟩)
    ∧ ((fetchStep "j1" "print()" "p1" exHookStart
          exCompletedStatus).processedIds.contains "j1" = true
       ∧ (fetchStep "j1" "print()" "p1" exHookStart
            exCompletedStatus).result.isSome = true
       ∧ pollingActive "j1"
          (fetchStep "j1" "print()" "p1" exHookStart exCompletedStatus)
          = false) :=
  ⟨(judge_result_processed_once "j1" "print()" "p1" ⟨none, none, ["j1"]⟩
      exCompletedStatus [] ⟨"", "", "", [], none⟩).1 (by decide),
   (judge_result_processed_once "j1" "print()" "p1"
      ⟨none, some ⟨"j1", "p1", "print()", [], none⟩, []⟩ exCompletedStatus
      [exCompletedStatus] ⟨"j1", "p1", "print()", [], none⟩).2.1 rfl,
   (judge_result_processed_once "j1" "print()" "p1" exHookStart
      exCompletedStatus [] ⟨"", "", "", [], none⟩).2.2 (by decide) rfl
      (Or.inl rfl)⟩

/-- C4 (spec-modelled): persisting a case result through the upsert keyed on
`(judge_process_id, judge_case_id)` preserves the at-most-one-row-per-pair
invariant, and after a re-execution every row stored for the re-executed
pair carries the latest outcome (status and result of the new row), not the
old one — the upsert overwrites instead of inserting a duplicate. -/
theorem case_result_upsert_no_duplicates (table : List CaseResultRow)
    (new : CaseResultRow) (pid cid : Nat)
    (h : pairCount table pid cid ≤ 1) :
    pairCount (persistCaseResult table new) pid cid ≤ 1
    ∧ ∀ r ∈ persistCaseResult table new,
        r.judge_process_id = new.judge_process_id →
        r.judge_case_id = new.judge_case_id →
        r.status = new.status ∧ r.result = new.result := by
  unfold persistCaseResult
  by_cases hany : table.any (fun r => samePair r new) = true
  · rw [if_pos hany]
    constructor
    · unfold pairCount at h ⊢
      rw [List.filter_map, List.length_map, List.filter_congr ?hcong]
      · exact h
      case hcong =>
        intro r _
        by_cases hm : samePair r new = true
        · have hpair : r.judge_process_id = new.judge_process_id
              ∧ r.judge_case_id = new.judge_case_id := by
            simpa [samePair] using hm
          simp only [Function.comp_apply]
          rw [if_pos hm]
          dsimp only
          rw [hpair.1, hpair.2]
        · simp only [Function.comp_apply]
          rw [if_neg hm]
    · intro r hr hjp hjc
      rw [List.mem_map] at hr
      obtain ⟨r0, hr0, hfr⟩ := hr
      by_cases hm : samePair r0 new = true
      · rw [if_pos hm] at hfr
        subst hfr
        exact ⟨rfl, rfl⟩
      · rw [if_neg hm] at hfr
        subst hfr
        exact absurd (by simp [samePair, hjp, hjc]) hm
  · rw [if_neg hany]
    have h0 : table.any (fun r => samePair r new) = false := by
      cases htest : table.any (fun r => samePair r new) with
      | false => rfl
      | true => exact absurd htest hany
    rw [List.any_eq_false] at h0
    have hall : ∀ r ∈ table, samePair r new = false := by
      intro r hr
      cases hval : samePair r new with
      | false => rfl
      | true => exact absurd hval (h0 r hr)
    constructor
    · unfold pairCount at h ⊢
      rw [List.filter_append]
      by_cases hqn : (decide (new.judge_process_id = pid)
          && decide (new.judge_case_id = cid)) = true
      · have h1 : new.judge_process_id = pid ∧ new.judge_case_id = cid := by
          simpa using hqn
        have hnil : table.filter (fun r =>
            decide (r.judge_process_id = pid)
              && decide (r.judge_case_id = cid)) = [] := by
          rw [List.filter_eq_nil_iff]
          intro a ha hpa
          have h2 : a.judge_process_id = pid ∧ a.judge_case_id = cid := by
            simpa using hpa
          have hsp : samePair a new = true := by
            simp [samePair, h2.1, h2.2, h1.1, h1.2]
          rw [hall a ha] at hsp
          exact Bool.false_ne_true hsp
        rw [hnil]
        simp [List.filter, hqn]
      · rw [List.filter_cons]
        rw [if_neg hqn]
        simpa using h
    · intro r hr hjp hjc
      rw [List.mem_append] at hr
      cases hr with
      | inl h1 =>
        have hsp : samePair r new = true := by
          simp [samePair, hjp, hjc]
        rw [hall r h1] at hsp
        exact absurd hsp Bool.false_ne_true
      | inr h2 =>
        have hrn : r = new := by simpa using h2
        subst hrn
        exact ⟨rfl, rfl⟩

/-- Witness for C4: re-executing process 1's case 1 (old verdict WA, new
verdict AC) over a one-row table keeps a single row for the pair, and the
overwritten row (keeping its original row id) carries the new AC status. -/
theorem case_result_upsert_no_duplicates_witness :
    pairCount (persistCaseResult [exCaseResultWA] exCaseResultAC) 1 1 ≤ 1
    ∧ ({ exCaseResultAC with id := exCaseResultWA.id }
        : CaseResultRow).status = exCaseResultAC.status :=
  ⟨(case_result_upsert_no_duplicates [exCaseResultWA] exCaseResultAC 1 1
      (by decide)).1,
   ((case_result_upsert_no_duplicates [exCaseResultWA] exCaseResultAC 1 1
      (by decide)).2 { exCaseResultAC with id := exCaseResultWA.id }
      (by decide) rfl rfl).1⟩
